import Mathlib

/-!
Verification development for the jison_refactored parser-generator toolkit.

The definitions below are a shallow embedding of the JavaScript sources:
  src/src/generators/SLRGenerator.js   (SLRGenerator, and BaseGenerator appended there)
  src/src/generators/LALRGenerator.js
  src/src/generators/LR1Generator.js
  src/src/generators/ParserGeneratorFactory.js
  src/src/core/Parser.js
  src/src/utils/constants.js
Grammar symbols are strings, as in the source.  JavaScript Sets and Maps are
modelled as insertion-ordered lists with duplicate suppression; objects used
as string-keyed records become association lists in insertion order.
While-loops that run to a fixed point receive an explicit fuel argument;
every concrete evaluation in the theorems supplies fuel well beyond what the
corresponding JavaScript loop needs to terminate, so the embedded result
equals the loop's result.
-/

namespace Jison

/-- SHIFT action code, from src/src/utils/constants.js (ParserActions.SHIFT = 1). -/
def SHIFT : Nat := 1

/-- REDUCE action code (ParserActions.REDUCE = 2). -/
def REDUCE : Nat := 2

/-- ACCEPT action code (ParserActions.ACCEPT = 3). -/
def ACCEPT : Nat := 3

/-- EOF sentinel (constants.js SpecialSymbols.EOF = the string dollar-end). -/
def EOFSym : String := "$end"

/-- A table cell action: the pair [actionType, argument] of the source. -/
abbrev Act := Nat × Nat

/-- Character-list comparison realizing the default lexicographic JavaScript
Array.prototype.sort order on the ASCII key strings the source builds. -/
def charListLt : List Char → List Char → Bool
  | [], [] => false
  | [], _ :: _ => true
  | _ :: _, [] => false
  | a :: as, b :: bs =>
    if a.toNat < b.toNat then true
    else if b.toNat < a.toNat then false
    else charListLt as bs

/-- Lexicographic order on strings (JavaScript string comparison). -/
def strLt (a b : String) : Bool := charListLt a.data b.data

/-- Insertion step of the string sort. -/
def insertStr (x : String) : List String → List String
  | [] => [x]
  | y :: ys => if strLt x y then x :: y :: ys else y :: insertStr x ys

/-- Sort a list of strings (JavaScript .sort() on the key strings). -/
def sortStrs (l : List String) : List String := l.foldr insertStr []

/-- JavaScript Set.add: append if absent, keeping insertion order. -/
def addUnique (l : List String) (x : String) : List String :=
  if x ∈ l then l else l ++ [x]

/-- A production [lhs, rhs] as stored by BaseGenerator.addProduction:
the pair of the left-hand-side symbol and the handle (right-hand side). -/
abbrev Production := String × List String

/-- An LR item as built by the generators: a production reference, a dot
position, and a lookahead Set (insertion-ordered, duplicate-free). -/
structure Item where
  production : Production
  dotPosition : Nat
  lookahead : List String
deriving DecidableEq, Repr

/-- First sets: a Map from symbol to its FIRST Set (insertion order). -/
abbrev FirstSets := List (String × List String)

/-- Map.get on the first-sets map. -/
def lookupFS (fs : FirstSets) (s : String) : Option (List String) :=
  (fs.find? (fun p => p.1 == s)).map (fun p => p.2)

/-- Map.set on the first-sets map (replace the value at an existing key,
append a new key at the end). -/
def mapSetFS (fs : FirstSets) (k : String) (v : List String) : FirstSets :=
  if fs.any (fun p => p.1 == k) then
    fs.map (fun p => if p.1 == k then (k, v) else p)
  else fs ++ [(k, v)]

/-- Loop body shared by SLRGenerator.computeProductionFirst (lines 64-92)
and BaseGenerator.computeRemainingFirst (lines 462-494): walk the symbols,
collecting non-epsilon FIRST members, stopping at the first non-nullable
symbol.  Epsilon is the empty string in these functions.  A symbol with no
FIRST entry is skipped (the JavaScript `if (!symbolFirst) continue`). -/
def firstWalk (fs : FirstSets) : List String → List String → List String × Bool
  | [], result => (result, true)
  | sym :: rest, result =>
    match lookupFS fs sym with
    | none => firstWalk fs rest result
    | some symbolFirst =>
      let result' := symbolFirst.foldl
        (fun r s => if s ≠ "" then addUnique r s else r) result
      if "" ∈ symbolFirst then firstWalk fs rest result'
      else (result', false)

/-- SLRGenerator.computeProductionFirst (SLRGenerator.js lines 64-92). -/
def computeProductionFirst (fs : FirstSets) (handle : List String) : List String :=
  let (result, allNullable) := firstWalk fs handle []
  if allNullable then addUnique result "" else result

/-- One pass of the computeFirstSets while-loop (SLRGenerator.js lines 46-61):
for every production, add FIRST(rhs) to FIRST(lhs), reporting whether any
set grew. -/
def firstPass (prods : List Production) (fs : FirstSets) : FirstSets × Bool :=
  prods.foldl
    (fun acc p =>
      let newSymbols := computeProductionFirst acc.1 p.2
      let lhsFirst := (lookupFS acc.1 p.1).getD []
      let step := newSymbols.foldl
        (fun st s => if s ∈ st.1 then st else (st.1 ++ [s], true))
        (lhsFirst, acc.2)
      (mapSetFS acc.1 p.1 step.1, step.2))
    (fs, false)

/-- SLRGenerator.computeFirstSets (lines 35-62): terminals start with
FIRST = self, nonterminals empty; iterate firstPass to a fixed point. -/
def computeFirstSets (prods : List Production) (terminals nonterminals : List String) :
    Nat → FirstSets → FirstSets
  | 0, fs => fs
  | fuel + 1, fs =>
    let step := firstPass prods fs
    if step.2 then computeFirstSets prods terminals nonterminals fuel step.1 else step.1

/-- Initial first-sets map (terminals then nonterminals, insertion order). -/
def firstSetsInit (terminals nonterminals : List String) : FirstSets :=
  terminals.map (fun t => (t, [t])) ++ nonterminals.map (fun n => (n, []))

/-- The whole first-sets computation of a generator. -/
def firstSetsOf (prods : List Production) (terminals nonterminals : List String)
    (fuel : Nat) : FirstSets :=
  computeFirstSets prods terminals nonterminals fuel (firstSetsInit terminals nonterminals)

/-- SLRGenerator.itemKey (lines 252-255): the string
lhs ++ "->" ++ rhs joined by spaces ++ "|" ++ dot ++ "|" ++ sorted lookahead
joined by commas.  The key includes the lookahead set. -/
def itemKey (it : Item) : String :=
  it.production.1 ++ "->" ++ String.intercalate " " it.production.2 ++ "|" ++
    toString it.dotPosition ++ "|" ++ String.intercalate "," (sortStrs it.lookahead)

/-- SLRGenerator.stateKey (lines 248-250): sorted item keys joined by bars. -/
def stateKey (items : List Item) : String :=
  String.intercalate "|" (sortStrs (items.map itemKey))

/-- SLRGenerator.hasItem (lines 257-259): membership by full item key,
lookahead included. -/
def hasItem (state : List Item) (it : Item) : Bool :=
  state.any (fun i => itemKey i == itemKey it)

/-- The TypeError raised by SLRGenerator.closure (and identically by
LALRGenerator.closure) on its first expansion: line 183 builds
`const closure = new Set(items)` and line 215 asks
`this.hasItem(closure, newItem)`, but hasItem (line 258) calls
`state.some(...)` and JavaScript Sets have no .some method.  The call
happens inside the forEach over the productions of the expanded
nonterminal (line 199), on the very first such production. -/
def closureSomeTypeError : String := "TypeError: state.some is not a function"

/-- Closure worklist loop of SLRGenerator.closure (lines 182-223; the
LALRGenerator copy on lines 184-225 has the same control flow).  An item
whose dot sits before a nonterminal triggers an expansion: the code
computes computeRemainingFirst of the trailer, filters the productions of
the nonterminal and, for each, builds a new item and tests membership with
hasItem on the closure -- which is a Set, so the first filtered production
raises the TypeError above.  When no production matches (or the dot symbol
is absent or a terminal) the item is skipped and the loop continues; a
closure that never expands returns Array.from of the Set, i.e. the input
items. -/
def closureLoop (prods : List Production) (nonterms : List String) :
    List Item → List Item → Nat → Except String (List Item)
  | clos, [], _ => .ok clos
  | clos, _, 0 => .ok clos
  | clos, item :: queue, fuel + 1 =>
    match item.production.2.get? item.dotPosition with
    | none => closureLoop prods nonterms clos queue fuel
    | some sym =>
      if sym ∈ nonterms then
        if (prods.filter (fun p => p.1 == sym)).isEmpty then
          closureLoop prods nonterms clos queue fuel
        else .error closureSomeTypeError
      else closureLoop prods nonterms clos queue fuel

/-- SLRGenerator.closure of an item list (also the behaviour of the
LALRGenerator copy, whose only textual differences sit inside the deadly
expansion callback). -/
def slrClosure (prods : List Production) (nonterms : List String)
    (items : List Item) (fuel : Nat) : Except String (List Item) :=
  closureLoop prods nonterms items items fuel

/-- Append an item to the transitions Map entry of a symbol
(computeTransitions, SLRGenerator.js lines 225-246). -/
def transAppend (trans : List (String × List Item)) (sym : String) (it : Item) :
    List (String × List Item) :=
  if trans.any (fun p => p.1 == sym) then
    trans.map (fun p => if p.1 == sym then (p.1, p.2 ++ [it]) else p)
  else trans ++ [(sym, [it])]

/-- SLRGenerator.computeTransitions (lines 225-246): group the dot-advanced
items of a state by the symbol after the dot, in insertion order. -/
def computeTransitions (items : List Item) : List (String × List Item) :=
  items.foldl
    (fun trans it =>
      match it.production.2.get? it.dotPosition with
      | none => trans
      | some sym => transAppend trans sym ⟨it.production, it.dotPosition + 1, it.lookahead⟩)
    []

/-- A state of the canonical collection: its items and its transitions map
(symbol to destination state index); an unset transitions field is the
empty list. -/
structure SState where
  items : List Item
  transitions : List (String × Nat)
deriving DecidableEq, Repr

/-- Map.set on a transitions map. -/
def mapSetNat (tr : List (String × Nat)) (k : String) (v : Nat) : List (String × Nat) :=
  if tr.any (fun p => p.1 == k) then
    tr.map (fun p => if p.1 == k then (k, v) else p)
  else tr ++ [(k, v)]

/-- The per-transition step of the canonicalCollection state loop
(SLRGenerator.js lines 164-176): take the closure of the dot-advanced
items (propagating its TypeError), register the state if its stateKey is
unseen and record the transition index. -/
def canonTransLoop (prods : List Production) (nonterms : List String) (clFuel : Nat) :
    List (String × List Item) → List SState × List (String × Nat) →
    Except String (List SState × List (String × Nat))
  | [], acc => .ok acc
  | symItems :: rest, acc => do
    let nextState ← closureLoop prods nonterms symItems.2 symItems.2 clFuel
    let key := stateKey nextState
    match acc.1.findIdx? (fun s => stateKey s.items == key) with
    | some j =>
      canonTransLoop prods nonterms clFuel rest (acc.1, mapSetNat acc.2 symItems.1 j)
    | none =>
      canonTransLoop prods nonterms clFuel rest
        (acc.1 ++ [⟨nextState, []⟩], mapSetNat acc.2 symItems.1 acc.1.length)

/-- The state loop of SLRGenerator.canonicalCollection (lines 160-177):
process state i, computing Goto for every transition symbol. -/
def canonLoop (prods : List Production) (nonterms : List String) (clFuel : Nat) :
    List SState → Nat → Nat → Except String (List SState)
  | states, _, 0 => .ok states
  | states, i, fuel + 1 =>
    match states.get? i with
    | none => .ok states
    | some st => do
      let step ← canonTransLoop prods nonterms clFuel (computeTransitions st.items)
        (states, st.transitions)
      canonLoop prods nonterms clFuel (step.1.set i ⟨st.items, step.2⟩) (i + 1) fuel

/-- SLRGenerator.canonicalCollection (lines 144-180): BFS from the closure
of the first production dotted at 0 with lookahead set containing
SpecialSymbols.EOF.  A closure TypeError aborts the build; with an empty
production list the initial item destructures undefined and crashes too
(never exercised here). -/
def slrCanonicalCollection (prods : List Production) (nonterms : List String)
    (clFuel ccFuel : Nat) : Except String (List SState) :=
  match prods.get? 0 with
  | none => .error "TypeError: cannot destructure an undefined production"
  | some p0 => do
    let initialState ← slrClosure prods nonterms [⟨p0, 0, [EOFSym]⟩] clFuel
    canonLoop prods nonterms clFuel [⟨initialState, []⟩] 0 ccFuel

/-- JavaScript Array.prototype.indexOf on the productions list (the items
hold references into that list, so reference equality coincides with value
equality at the first occurrence).  The source's -1 for a missing element
is represented by the list length; no run in this file looks up a missing
production. -/
def indexOfProd (prods : List Production) (p : Production) : Nat :=
  match prods.findIdx? (fun q => q == p) with
  | some i => i
  | none => prods.length

/-- SLRGenerator.resolveConflict (lines 298-301), textually identical in
LALRGenerator (371-374) and LR1Generator (314-317): prefer shift over
reduce; precedence and associativity are not consulted. -/
def resolveConflict (prods : List Production) (production : Production) (action : Act) : Act :=
  if action.1 == SHIFT then action else (REDUCE, indexOfProd prods production)

/-- An ACTION-table row: a string-keyed object in insertion order. -/
abbrev Row := List (String × Act)

/-- A recorded conflict resolution [stateIndex, lookahead, chosenAction]. -/
abbrev Resolution := Nat × String × Act

/-- Reduce-action insertion over the lookahead set of one completed item
(SLRGenerator.parseTable lines 278-288): a populated cell is left unchanged
while the conflict counter grows and a resolution is recorded; an empty
cell receives [REDUCE, production index]. -/
def addReduceLA (prods : List Production) (stateIndex : Nat) (prod : Production) :
    List String → Row × Nat × List Resolution → Row × Nat × List Resolution
  | [], acc => acc
  | la :: rest, (row, conflicts, resolutions) =>
    match row.find? (fun c => c.1 == la) with
    | some c =>
      addReduceLA prods stateIndex prod rest
        (row, conflicts + 1, resolutions ++ [(stateIndex, la, resolveConflict prods prod c.2)])
    | none =>
      addReduceLA prods stateIndex prod rest
        (row ++ [(la, (REDUCE, indexOfProd prods prod))], conflicts, resolutions)

/-- Reduce-action insertion over all completed items of a state
(SLRGenerator.parseTable lines 275-290; completion is dot at the end of the
right-hand side). -/
def addReduces (prods : List Production) (stateIndex : Nat) :
    List Item → Row × Nat × List Resolution → Row × Nat × List Resolution
  | [], acc => acc
  | it :: rest, acc =>
    if it.dotPosition = it.production.2.length then
      addReduces prods stateIndex rest (addReduceLA prods stateIndex it.production it.lookahead acc)
    else addReduces prods stateIndex rest acc

/-- One row of the ACTION table (SLRGenerator.parseTable lines 264-292):
every transition (terminal or nonterminal) becomes a Shift cell, then the
completed items add Reduce cells. -/
def stateRow (prods : List Production) (stateIndex : Nat) (st : SState)
    (conflicts : Nat) (resolutions : List Resolution) : Row × Nat × List Resolution :=
  let row0 : Row := st.transitions.map (fun t => (t.1, (SHIFT, t.2)))
  addReduces prods stateIndex st.items (row0, conflicts, resolutions)

/-- The result of parseTable together with the generator's conflict counting
(this.conflicts, this.resolutions). -/
structure PTResult where
  table : List Row
  conflicts : Nat
  resolutions : List Resolution
deriving DecidableEq, Repr

/-- The state recursion of SLRGenerator.parseTable (lines 261-296). -/
def parseTableGo (prods : List Production) :
    List SState → Nat → Nat → List Resolution → List Row → PTResult
  | [], _, cf, res, acc => ⟨acc, cf, res⟩
  | st :: rest, i, cf, res, acc =>
    let step := stateRow prods i st cf res
    parseTableGo prods rest (i + 1) step.2.1 step.2.2 (acc ++ [step.1])

/-- SLRGenerator.parseTable (lines 261-296). -/
def parseTable (prods : List Production) (states : List SState) : PTResult :=
  parseTableGo prods states 0 0 [] []

/-- SLRGenerator.findDefaults (lines 340-351), textually identical in
LALRGenerator (428-439): a state earns a default action exactly when its
row holds exactly one action and that action is a Reduce. -/
def findDefaults (table : List Row) : List (Nat × Act) :=
  table.enum.filterMap
    (fun p =>
      let actions := p.2.map Prod.snd
      match actions with
      | [a] => if a.1 == REDUCE then some (p.1, a) else none
      | _ => none)

/-- LALRGenerator.getKernel (lines 291-293): the items with the dot past
position 0, plus every item whose production's left-hand side is the
grammar's declared start symbol. -/
def getKernel (start : String) (items : List Item) : List Item :=
  items.filter (fun it => it.dotPosition > 0 || it.production.1 == start)

/-- The per-item part of LALRGenerator.kernelKey (lines 295-299).  The
source writes production.join with a space on the [lhs, rhs] pair, which
stringifies the rhs array with commas, giving
lhs ++ "->" ++ lhs ++ " " ++ rhs joined by commas ++ "|" ++ dot.
The lookahead set does not participate: the key is the LR(0) core. -/
def kernelItemKey (it : Item) : String :=
  it.production.1 ++ "->" ++ it.production.1 ++ " " ++
    String.intercalate "," it.production.2 ++ "|" ++ toString it.dotPosition

/-- LALRGenerator.kernelKey (lines 295-299): sorted kernel-item keys joined
by bars. -/
def kernelKey (kernel : List Item) : String :=
  String.intercalate "|" (sortStrs (kernel.map kernelItemKey))

/-- The item part of LALRGenerator.mergeStateSet (lines 305-311): the
merged state is a plain array, so its hasItem call works; items of the
grouped states are collected, skipping only exact duplicates by full item
key (hasItem, lookahead included); items sharing a core but differing in
lookahead are kept side by side, with no union of lookahead sets.  The
function is reachable only from mergeStates inside LALRGenerator.buildTable,
which the crashing LALR preprocess (lalrProcessGrammar below) prevents
from ever running; it is embedded here as written. -/
def mergeItems (states : List SState) (idxs : List Nat) : List Item :=
  idxs.foldl
    (fun acc i =>
      match states.get? i with
      | none => acc
      | some st => st.items.foldl (fun a it => if hasItem a it then a else a ++ [it]) acc)
    []

/-! ## The parse runtime (src/src/core/Parser.js)

Parser.parse works with numeric symbol ids (EOF = 1, TERROR = 2), a table
indexed by state then symbol, a defaultActions record, a productions_
array of [lhsSymbol, rhsLength] pairs, a lexer, and the external
performAction callback.  Semantic values are arbitrary JavaScript values;
we model the ones the claims need (undefined, null, booleans, strings,
numbers).  Locations carry the first/last data the reduce case reads. -/

/-- A JavaScript value on the semantic-value stack. -/
inductive JSVal where
  | undef
  | null
  | bool (b : Bool)
  | str (s : String)
  | num (n : Int)
deriving DecidableEq, Repr

/-- A location record: first and last position (the reduce case only
combines a first part and a last part). -/
abbrev Loc := Nat × Nat

/-- A value on the parser's state stack.  The source pushes state numbers
and token ids, but the reduce case pushes whatever
table[state][lhs] holds -- an action array -- and pushes undefined when
that cell is empty; all three shapes occur. -/
inductive StackVal where
  | num (n : Nat)
  | act (a : Act)
  | undef
deriving DecidableEq, Repr

/-- A lexer token: id, text, location (the lexer contract of Parser.js:
lexer.lex() yields the id, lexer.yytext and lexer.yylloc the rest). -/
abbrev Tok := Nat × JSVal × Loc

/-- The parse configuration: the init dictionary of Parser.init plus the
token stream of the lexer.  performAction receives yytext, the production
index, and the unpopped value and location stacks, and may return a value
(modelled some) or undefined (none). -/
structure PCfg where
  table : List (List (Nat × Act))
  defaultActions : List (Nat × Act)
  productions : List (Nat × Nat)
  tokens : List Tok
  initLoc : Loc
  performAction : JSVal → Nat → List JSVal → List Loc → Option JSVal

/-- The mutable state of one Parser.parse invocation: the three parallel
stacks, the current lookahead symbol, the recovery bookkeeping, the
parser-local yytext, and the lexer state (its yytext, yylloc, position). -/
structure PMachine where
  stack : List StackVal
  vstack : List JSVal
  lstack : List Loc
  symbol : Option Nat
  preErrorSymbol : Option Nat
  recovering : Nat
  yytext : JSVal
  lexYytext : JSVal
  lexYylloc : Loc
  pos : Nat
deriving Repr

/-- The outcome of a parse: a returned value, the RangeError raised when
the error branch sets the stack length to NaN, a TypeError from an
undefined dereference, or fuel exhaustion of the embedding. -/
inductive POutcome where
  | ret (v : JSVal)
  | rangeError
  | typeError
  | outOfFuel
deriving DecidableEq, Repr

/-- defaultActions[state]: defined only when the stack top is a number
(any other stack value stringifies to a key the record does not contain). -/
def lookupDefault (cfg : PCfg) : StackVal → Option Act
  | .num s => (cfg.defaultActions.find? (fun p => p.1 == s)).map (fun p => p.2)
  | _ => none

/-- table[state] && table[state][symbol]. -/
def lookupTable (cfg : PCfg) (state : StackVal) (symbol : Option Nat) : Option Act :=
  match state, symbol with
  | .num s, some n =>
    (cfg.table.get? s).bind (fun row => (row.find? (fun c => c.1 == n)).map (fun c => c.2))
  | _, _ => none

/-- lexer.lex() with the Parser.parse wrapper symbol = lexer.lex() || EOF:
consume the next token, replacing a falsy id by EOF = 1; at the end of the
stream the lexer keeps answering EOF. -/
def doLex (cfg : PCfg) (m : PMachine) : PMachine :=
  match cfg.tokens.get? m.pos with
  | some t =>
    { m with symbol := some (if t.1 == 0 then 1 else t.1),
             lexYytext := t.2.1, lexYylloc := t.2.2, pos := m.pos + 1 }
  | none => { m with symbol := some 1 }

/-- The action-selection prefix of each loop iteration (Parser.js
lines 79-88): take defaultActions[state] when present; otherwise make sure
a lookahead symbol exists (lexing one if needed) and read
table[state][symbol]. -/
def getAction (cfg : PCfg) (m : PMachine) : Option Act × PMachine :=
  let state := m.stack.getLastD .undef
  match lookupDefault cfg state with
  | some a => (some a, m)
  | none =>
    let m' := if m.symbol.isNone then doLex cfg m else m
    (lookupTable cfg state m'.symbol, m')

/-- The Parser.parse no-action branch (Parser.js lines 90-131), entered
when the selected action is undefined, an empty array, or has a falsy
first element (the `typeof action === 'undefined' || !action.length ||
!action[0]` test on line 90).

With the recovery counter at 0 the code builds the expected-token list and
calls this.parseError(errStr, hash) with hash.recoverable =
(error_rule_depth !== false); error_rule_depth is a declared but never
assigned local, so the hash is recoverable, and the default
Parser.prototype.parseError (lines 198-204) then runs its recoverable
branch this.trace(str) -- but the Parser class defines no trace method, so
reading and calling the undefined this.trace throws TypeError right there,
inside the error report.

With the recovery counter positive the report block is skipped; the
error_rule_depth === false check fails (undefined is not false), no
ParserError is thrown, and popStack(error_rule_depth) (lines 70-74) sets
stack.length = stack.length - 2 * undefined = NaN, which raises
RangeError.  (The counter can in fact never become positive: the only
assignment recovering = 3 sits after that popStack call, so this arm is
dead in real runs.)

Neither path walks the stack looking for a state whose ACTION on the
ERROR token is a Shift -- the helper that would compute error_rule_depth
does not exist in this source. -/
def parseErrorBranch (m : PMachine) : POutcome :=
  if m.recovering = 0 then .typeError else .rangeError

/-- One iteration plus the rest of the Parser.parse while-loop
(Parser.js lines 78-195), by explicit fuel.  The no-action branch is
parseErrorBranch above; the SHIFT case is lines 138-156, the REDUCE case
lines 158-190, the ACCEPT case lines 192-193 (return true; the constant,
not the top of the value stack). -/
def parseLoop (cfg : PCfg) : PMachine → Nat → POutcome
  | _, 0 => .outOfFuel
  | m, fuel + 1 =>
    match getAction cfg m with
    | (none, m') => parseErrorBranch m'
    | (some a, m') =>
      if a.1 = 0 then parseErrorBranch m'
      else if a.1 = SHIFT then
        let stack := m'.stack ++
          [match m'.symbol with | some n => StackVal.num n | none => StackVal.undef] ++
          [StackVal.num a.2]
        let vstack := m'.vstack ++ [m'.lexYytext]
        let lstack := m'.lstack ++ [m'.lexYylloc]
        let m'' :=
          match m'.preErrorSymbol with
          | none =>
            { m' with stack := stack, vstack := vstack, lstack := lstack,
                      symbol := none, yytext := m'.lexYytext,
                      recovering := if m'.recovering > 0 then m'.recovering - 1 else 0 }
          | some pre =>
            { m' with stack := stack, vstack := vstack, lstack := lstack,
                      symbol := some pre, preErrorSymbol := none }
        parseLoop cfg m'' fuel
      else if a.1 = REDUCE then
        match cfg.productions.get? a.2 with
        | none => .typeError
        | some prod =>
          let len := prod.2
          let yyvalDollar := m'.vstack.getD (m'.vstack.length - len) .undef
          match m'.lstack.get? (m'.lstack.length - (if len == 0 then 1 else len)),
                m'.lstack.get? (m'.lstack.length - 1) with
          | some locFirst, some locLast =>
            let yyvalLoc : Loc := (locFirst.1, locLast.2)
            match cfg.performAction m'.yytext a.2 m'.vstack m'.lstack with
            | some r => .ret r
            | none =>
              let stack := if len ≠ 0 then m'.stack.take (m'.stack.length - 2 * len) else m'.stack
              let vstack := if len ≠ 0 then m'.vstack.take (m'.vstack.length - len) else m'.vstack
              let lstack := if len ≠ 0 then m'.lstack.take (m'.lstack.length - len) else m'.lstack
              let stack := stack ++ [StackVal.num prod.1]
              let vstack := vstack ++ [yyvalDollar]
              let lstack := lstack ++ [yyvalLoc]
              let newState :=
                match lookupTable cfg (stack.getD (stack.length - 2) .undef)
                    (match stack.getLastD .undef with
                     | .num n => some n
                     | _ => none) with
                | some act => StackVal.act act
                | none => StackVal.undef
              parseLoop cfg { m' with stack := stack ++ [newState],
                                      vstack := vstack, lstack := lstack } fuel
          | _, _ => .typeError
      else if a.1 = ACCEPT then
        .ret (.bool true)
      else
        parseLoop cfg m' fuel

/-- The initial machine of Parser.parse (lines 28-30 and 60): stack [0],
value stack [null], location stack seeded with the lexer's initial yylloc,
no lookahead, recovery counter 0. -/
def initMachine (cfg : PCfg) : PMachine :=
  { stack := [.num 0], vstack := [.null], lstack := [cfg.initLoc],
    symbol := none, preErrorSymbol := none, recovering := 0,
    yytext := .str "", lexYytext := .undef, lexYylloc := cfg.initLoc, pos := 0 }

/-- Parser.parse on a configuration, by fuel. -/
def jisonParse (cfg : PCfg) (fuel : Nat) : POutcome :=
  parseLoop cfg (initMachine cfg) fuel

/-! ## Grammar intake (BaseGenerator, appended in SLRGenerator.js) -/

/-- The bnf part of a structured grammar object. -/
structure BnfG where
  start : Option String
  tokens : Option (List String)
  productions : List (String × List String)
deriving DecidableEq, Repr

/-- A structured grammar object as handed to the generators; bnf and ebnf
may each be absent. -/
structure GrammarInput where
  bnf : Option BnfG
  ebnf : Option Unit
deriving DecidableEq, Repr

/-- The symbol data processGrammar accumulates on the generator. -/
structure GenState where
  terminals : List String
  nonterminals : List String
  productions : List Production
deriving DecidableEq, Repr

/-- BaseGenerator.validateGrammar (SLRGenerator.js lines 430-434): the
only check is that the grammar object carries a bnf or an ebnf property;
nothing inspects the production list or the start symbol. -/
def validateGrammar (g : GrammarInput) : Except String Unit :=
  if g.bnf.isNone ∧ g.ebnf.isNone then
    .error "Grammar must have either bnf or ebnf property"
  else .ok ()

/-- BaseGenerator.processGrammar (SLRGenerator.js lines 399-423): validate,
take the declared tokens as the terminal list when present, and collect
each production's left-hand side into the nonterminal set while appending
the production.  No emptiness or start-symbol check exists. -/
def processGrammar (g : GrammarInput) : Except String GenState := do
  validateGrammar g
  let terminals :=
    match g.bnf.bind (fun b => b.tokens) with
    | some ts => ts
    | none => []
  let st :=
    match g.bnf with
    | some b =>
      b.productions.foldl
        (fun acc p =>
          { acc with nonterminals := addUnique acc.nonterminals p.1,
                     productions := acc.productions ++ [p] })
        { terminals := terminals, nonterminals := [], productions := [] }
    | none => { terminals := terminals, nonterminals := [], productions := [] }
  return st

/-- BaseGenerator.processGrammar as executed on an LALRGenerator (the same
holds for LR1Generator and LLGenerator): the subclass constructor runs
after the BaseGenerator constructor and replaces this.nonterminals with a
plain object literal (LALRGenerator.js line 9), which has neither an add
nor a forEach method.  processGrammar then either calls
this.nonterminals.add on the first production (SLRGenerator.js line 413)
or, with no productions, reaches the trailing
this.nonterminals.forEach initialization loop (line 419); both throw
TypeError, so LALR preprocessing never completes on any grammar that
passes validateGrammar. -/
def lalrProcessGrammar (g : GrammarInput) : Except String GenState := do
  validateGrammar g
  match g.bnf with
  | some b =>
    match b.productions with
    | _ :: _ => .error "TypeError: this.nonterminals.add is not a function"
    | [] => .error "TypeError: this.nonterminals.forEach is not a function"
  | none => .error "TypeError: this.nonterminals.forEach is not a function"

/-! ## The generator factory (src/src/generators/ParserGeneratorFactory.js)
and the Jison entry point (src/src/index.js) -/

/-- The five generator classes the factory map knows. -/
inductive GeneratorKind where
  | lr0
  | slr
  | lalr
  | lr1
  | ll
deriving DecidableEq, Repr

/-- The own keys of the generatorMap object literal of
ParserGeneratorFactory.createGenerator (lines 9-15). -/
def generatorMapLookup (type : String) : Option GeneratorKind :=
  if type == "lr0" then some .lr0
  else if type == "slr" then some .slr
  else if type == "lalr" then some .lalr
  else if type == "lr1" then some .lr1
  else if type == "ll" then some .ll
  else none

/-- The property names an object literal inherits from Object.prototype,
which the generatorMap[type] access reaches after missing the own keys:
the constructor accessor path yields the Object function itself,
the proto accessor yields the Object.prototype object, and the rest are
built-in methods; all of them are truthy. -/
def objectProtoKeys : List String :=
  ["constructor", "hasOwnProperty", "isPrototypeOf", "propertyIsEnumerable",
   "toLocaleString", "toString", "valueOf", "__proto__",
   "__defineGetter__", "__defineSetter__", "__lookupGetter__", "__lookupSetter__"]

/-- What new GeneratorClass(grammar, options) produces in
ParserGeneratorFactory.createGenerator (line 18). -/
inductive FactoryResult where
  /-- One of the five generator classes, or the LALRGenerator fallback,
  was constructed. -/
  | generator (g : GeneratorKind)
  /-- The type string was the inherited key constructor: GeneratorClass is
  the Object function, and new Object(grammar, options) returns the
  grammar object itself, not a generator. -/
  | grammarObject
  /-- The type string was another inherited Object.prototype key: the
  truthy inherited value (a built-in method, or Object.prototype for the
  proto accessor) is not a constructor, so the new expression throws. -/
  | typeErrorNotAConstructor
deriving DecidableEq, Repr

/-- ParserGeneratorFactory.createGenerator (lines 8-19):
generatorMap[type] || LALRGenerator, then new GeneratorClass(...).  The
property access generatorMap[type] walks the prototype chain: an own key
yields its class, an Object.prototype key yields the truthy inherited
value (so the fallback is skipped and the construction misfires), and
only a string matching neither -- or an undefined type, whose lookup key
is the string undefined -- falls through to LALRGenerator. -/
def createGenerator (type : Option String) : FactoryResult :=
  match type with
  | none => .generator .lalr
  | some t =>
    match generatorMapLookup t with
    | some g => .generator g
    | none =>
      if t == "constructor" then .grammarObject
      else if t ∈ objectProtoKeys then .typeErrorNotAConstructor
      else .generator .lalr

/-- The type selection of the Jison entry point (index.js line 6):
options.type || the lalr string. -/
def jisonType (optionsType : Option String) : String :=
  match optionsType with
  | some t => if t == "" then "lalr" else t
  | none => "lalr"

/-! ## Specification-side conflict-resolution policy

Modelled from the spec (section 4.4, Conflict resolution), for comparison
with the source's resolveConflict: precedence levels come from the
operators declarations (level = 1 + index of the declaration), a
production's precedence is that of the rightmost terminal of its
right-hand side that has a level, and a shift/reduce conflict resolves by
comparing the two. -/

/-- Modelled from the spec: one operators declaration
(assoc, sequence of terminals). -/
structure OperatorDecl where
  assoc : String
  tokens : List String
deriving DecidableEq, Repr

/-- Modelled from the spec: the precedence level of a terminal (1 + index
of the operators declaration listing it). -/
def specOpLevel (ops : List OperatorDecl) (t : String) : Option Nat :=
  (ops.enum.find? (fun p => t ∈ p.2.tokens)).map (fun p => p.1 + 1)

/-- Modelled from the spec: the associativity of a terminal. -/
def specOpAssoc (ops : List OperatorDecl) (t : String) : Option String :=
  (ops.find? (fun d => t ∈ d.tokens)).map (fun d => d.assoc)

/-- Modelled from the spec: a production's precedence defaults to that of
the rightmost terminal in its right-hand side that has one. -/
def specProdPrec (ops : List OperatorDecl) (rhs : List String) : Option Nat :=
  (rhs.reverse.find? (fun s => (specOpLevel ops s).isSome)).bind (specOpLevel ops)

/-- The outcome the spec mandates for a shift/reduce conflict. -/
inductive SpecChoice where
  | reduce
  | shift
  | explicitError
  | keepShiftAndRecord
deriving DecidableEq, Repr

/-- Modelled from the spec (claim C3 and spec section 4.4): with both the
incoming terminal's and the production's precedence defined, a strictly
higher production precedence reduces; equal precedence consults the
associativity (left reduces, right shifts, nonassoc is an explicit error);
a lower production precedence shifts; with either precedence undefined the
precedences are incomparable and the builder keeps the shift and records
the conflict. -/
def specResolveShiftReduce (ops : List OperatorDecl) (terminal : String)
    (rhs : List String) : SpecChoice :=
  match specOpLevel ops terminal, specProdPrec ops rhs with
  | some tp, some pp =>
    if pp > tp then .reduce
    else if pp == tp then
      match specOpAssoc ops terminal with
      | some a =>
        if a == "left" then .reduce
        else if a == "right" then .shift
        else if a == "nonassoc" then .explicitError
        else .keepShiftAndRecord
      | none => .keepShiftAndRecord
    else .shift
  | _, _ => .keepShiftAndRecord

/-! ## Concrete instances

One family of concrete inputs per claim.  Every fuel argument is far
beyond what the corresponding JavaScript loop needs on these inputs, so
each embedded fixed point equals the loop's result.  Any grammar whose
closures expand a nonterminal hits the hasItem-on-a-Set TypeError, so the
successfully-built pipeline example below (gOne) is a grammar whose
right-hand sides contain no nonterminals: its closures never expand. -/

/-- A grammar the source builds successfully end to end: S to a (token a,
start S).  Its two closures -- of [S to .a] and [S to a.] -- never reach
an expansion, so no hasItem call happens; processGrammar, the FIRST/FOLLOW
passes, canonicalCollection, parseTable and findDefaults all complete. -/
def gOneProds : List Production := [("S", ["a"])]

/-- FIRST sets of the gOne grammar. -/
def gOneFS : FirstSets := firstSetsOf gOneProds ["a"] ["S"] 20

/-- The SLR build of the gOne grammar's canonical collection. -/
def gOneBuild : Except String (List SState) :=
  slrCanonicalCollection gOneProds ["S"] 50 50

/-- The two states the gOne build produces: state 0 is [S to .a] with the
transition a to 1, state 1 the completed [S to a.] with the EOF lookahead
it inherited from the initial item. -/
def gOneStates : List SState :=
  [⟨[⟨("S", ["a"]), 0, [EOFSym]⟩], [("a", 1)]⟩,
   ⟨[⟨("S", ["a"]), 1, [EOFSym]⟩], []⟩]

/-- The parse table of the gOne grammar. -/
def gOnePT : PTResult := parseTable gOneProds gOneStates

/-- The number of ACTION-table cells holding an Accept action. -/
def countAccept (table : List Row) : Nat :=
  (table.map (fun row => (row.filter (fun c => c.2.1 == ACCEPT)).length)).sum

/-- C5 grammar: S to A; A to B b; A to B d; B to a -- the initial closure
must expand A, so the very first expansion calls hasItem on the closure
Set and throws. -/
def gC5Prods : List Production :=
  [("S", ["A"]), ("A", ["B", "b"]), ("A", ["B", "d"]), ("B", ["a"])]

/-- C3 expression grammar: E to E + E; E to id. -/
def gExprProds : List Production := [("E", ["E", "+", "E"]), ("E", ["id"])]

/-- Operators declaration of the C3 grammar: + is left-associative
(a single level, so the + terminal and the production E to E + E share
precedence level 1). -/
def gExprOps : List OperatorDecl := [⟨"left", ["+"]⟩]

/-- C2 grammar, as a grammar object: S to a A d A e; A to c (start S,
tokens a c d e) -- the grammar whose LR(1) states [A to c., d] and
[A to c., e] would share an LR(0) kernel core, if the LALR pipeline could
run at all. -/
def gMGrammar : GrammarInput :=
  ⟨some ⟨some "S", some ["a", "c", "d", "e"],
    [("S", ["a", "A", "d", "A", "e"]), ("A", ["c"])]⟩, none⟩

/-- C6 parse configuration: state 0 shifts the error token (id 2) to
state 9 and token 5 to state 1; state 1 has an empty ACTION row, so
token 7 has no action there.  The claim's recovery would pop back to
state 0, whose ACTION on ERROR is a Shift. -/
def cfg6 : PCfg :=
  { table := [[(2, (1, 9)), (5, (1, 1))], []]
    defaultActions := []
    productions := []
    tokens := [(5, .str "a", (0, 0)), (7, .str "?", (0, 1))]
    initLoc := (0, 0)
    performAction := fun _ _ _ _ => none }

/-- C7 parse configuration: state 0 holds an Accept action for token 7,
so the very first dispatched action is Accept, with the value stack still
at its initial [null]. -/
def cfg7 : PCfg :=
  { table := [[(7, (3, 0))]]
    defaultActions := []
    productions := []
    tokens := [(7, .str "tok", (0, 0))]
    initLoc := (0, 0)
    performAction := fun _ _ _ _ => none }

/-- C9 parse configuration: state 0 reduces by production 0 (lhs symbol 9,
right-hand side length 1) on token 7, and the semantic-action callback
answers the number 42 for production 0. -/
def cfg9 : PCfg :=
  { table := [[(7, (2, 0))]]
    defaultActions := []
    productions := [(9, 1)]
    tokens := [(7, .str "x", (0, 2))]
    initLoc := (0, 0)
    performAction := fun _ p _ _ => if p == 0 then some (.num 42) else none }

/-! ## Helper lemmas -/

/-- The reduce-insertion loop only appends cells to a row, every appended
cell being a Reduce; existing cells keep their values and positions. -/
theorem addReduceLA_append (prods : List Production) (idx : Nat) (prod : Production) :
    ∀ (las : List String) (row : Row) (cf : Nat) (res : List Resolution),
    ∃ extra : Row, (addReduceLA prods idx prod las (row, cf, res)).1 = row ++ extra ∧
      extra.all (fun c => c.2.1 == REDUCE) = true := by
  intro las
  induction las with
  | nil => intro row cf res; exact ⟨[], by simp [addReduceLA], rfl⟩
  | cons la rest ih =>
    intro row cf res
    cases h : row.find? (fun c => c.1 == la) with
    | some c =>
      obtain ⟨extra, he, ha⟩ :=
        ih row (cf + 1) (res ++ [(idx, la, resolveConflict prods prod c.2)])
      exact ⟨extra, by simp only [addReduceLA, h]; exact he, ha⟩
    | none =>
      obtain ⟨extra, he, ha⟩ := ih (row ++ [(la, (REDUCE, indexOfProd prods prod))]) cf res
      refine ⟨(la, (REDUCE, indexOfProd prods prod)) :: extra, ?_, ?_⟩
      · simp only [addReduceLA, h]
        rw [he, List.append_assoc]
        rfl
      · simp [ha]

/-- A row whose cells are all Shift or Reduce keeps that property through
the reduce-insertion pass over a state's items. -/
theorem addReduces_cells (prods : List Production) (idx : Nat) :
    ∀ (items : List Item) (acc : Row × Nat × List Resolution),
    acc.1.all (fun c => c.2.1 == SHIFT || c.2.1 == REDUCE) = true →
    ((addReduces prods idx items acc).1.all
      (fun c => c.2.1 == SHIFT || c.2.1 == REDUCE)) = true := by
  intro items
  induction items with
  | nil => intro acc h; simpa [addReduces] using h
  | cons it rest ih =>
    intro acc h
    obtain ⟨row, cf, res⟩ := acc
    by_cases hd : it.dotPosition = it.production.2.length
    · simp only [addReduces, if_pos hd]
      apply ih
      obtain ⟨extra, he, ha⟩ := addReduceLA_append prods idx it.production it.lookahead row cf res
      rw [he, List.all_append, h, Bool.true_and]
      refine List.all_eq_true.mpr ?_
      intro c hc
      have hr := List.all_eq_true.mp ha c hc
      simp only [beq_iff_eq] at hr
      simp [hr]
    · simp only [addReduces, if_neg hd]
      exact ih _ h

/-- Every cell of a parse-table row is Shift or Reduce. -/
theorem stateRow_cells (prods : List Production) (idx : Nat) (st : SState)
    (cf : Nat) (res : List Resolution) :
    ((stateRow prods idx st cf res).1.all
      (fun c => c.2.1 == SHIFT || c.2.1 == REDUCE)) = true := by
  apply addReduces_cells
  refine List.all_eq_true.mpr ?_
  intro c hc
  simp only [List.mem_map] at hc
  obtain ⟨t, _, rfl⟩ := hc
  simp

/-- Every cell of every row produced by the parse-table loop is Shift or
Reduce, provided the accumulated rows already are. -/
theorem parseTableGo_rows (prods : List Production) :
    ∀ (states : List SState) (i cf : Nat) (res : List Resolution) (acc : List Row),
    (acc.all (fun row => row.all (fun c => c.2.1 == SHIFT || c.2.1 == REDUCE))) = true →
    (((parseTableGo prods states i cf res acc).table).all
      (fun row => row.all (fun c => c.2.1 == SHIFT || c.2.1 == REDUCE))) = true := by
  intro states
  induction states with
  | nil => intro i cf res acc h; simpa [parseTableGo] using h
  | cons st rest ih =>
    intro i cf res acc h
    simp only [parseTableGo]
    apply ih
    rw [List.all_append, h, Bool.true_and]
    simp [stateRow_cells]

/-- Membership in the defaults map characterized by the shape of the row:
a state has a recorded default exactly when its row consists of a single
cell whose action is a Reduce. -/
theorem findDefaults_mem (table : List Row) (s : Nat) (a : Act) :
    ((s, a) ∈ findDefaults table) ↔
      ∃ row, table.get? s = some row ∧ row.map Prod.snd = [a] ∧ a.1 = REDUCE := by
  simp only [findDefaults, List.mem_filterMap]
  constructor
  · rintro ⟨⟨i, row⟩, hmem, hf⟩
    have hget : table.get? i = some row := by
      rw [List.get?_eq_getElem?]
      exact List.mk_mem_enum_iff_getElem?.mp hmem
    revert hf
    cases hm : row.map Prod.snd with
    | nil => intro hf; simp at hf
    | cons b tl =>
      cases tl with
      | nil =>
        intro hf
        simp only [hm] at hf
        by_cases hb : b.1 == REDUCE
        · rw [if_pos hb] at hf
          obtain ⟨h1, h2⟩ := Prod.mk.injEq .. ▸ Option.some.injEq .. ▸ hf
          subst h1
          exact ⟨row, hget, by rw [hm, h2], by
            have := beq_iff_eq.mp hb
            rw [← h2]; exact this⟩
        · rw [if_neg hb] at hf
          simp at hf
      | cons c tl2 => intro hf; simp [hm] at hf
  · rintro ⟨row, hget, hmap, hred⟩
    refine ⟨(s, row), ?_, ?_⟩
    · refine List.mk_mem_enum_iff_getElem?.mpr ?_
      rw [← List.get?_eq_getElem?]
      exact hget
    · simp only [hmap]
      rw [if_pos (beq_iff_eq.mpr hred)]

end Jison

namespace Jison


/-! ## Claim theorems -/

/-- C1: the claim says every successful LR-family build yields exactly one
Accept cell, at ACTION[s, EOF] for the completed augmented item.  In the
source no generator augments the grammar and parseTable only ever writes
Shift cells (from transitions) and Reduce cells (from completed items):
the first conjunct proves that every cell of every parse table is Shift or
Reduce.  The remaining conjuncts run the one kind of grammar whose SLR
build truly completes -- S to a, whose closures never expand a nonterminal
and so never reach the hasItem-on-a-Set TypeError: its FIRST pass, its
canonical collection (two states) and its table all evaluate, and the
table holds zero Accept cells instead of the claimed exactly one. -/
theorem claim_C1_no_accept_cell :
    (∀ (prods : List Production) (states : List SState),
      ((parseTable prods states).table.all
        (fun row => row.all (fun c => c.2.1 == SHIFT || c.2.1 == REDUCE))) = true) ∧
    gOneFS = [("a", ["a"]), ("S", ["a"])] ∧
    gOneBuild = Except.ok gOneStates ∧
    countAccept gOnePT.table = 0 ∧ countAccept gOnePT.table ≠ 1 :=
  ⟨fun prods states => parseTableGo_rows prods states 0 0 [] [] rfl,
   by decide, rfl, by decide, by decide⟩

/-- C2: the claim describes canonical-LR(1)-then-merge LALR construction
with lookahead union and redirected transitions.  The LALR pipeline never
gets that far: preprocessing throws TypeError on the first production
(first conjunct, evaluating the grammar whose states the claim would
merge).  The remaining conjuncts evaluate the merging code as written:
the kernel grouping key indeed ignores lookaheads (so the two cores the
claim speaks of would fall into one group), yet mergeStateSet's item
collection keeps the two same-core items side by side with their distinct
lookahead sets -- no union is ever computed (and no transition-redirect
code exists; the transition maps collect raw pre-merge indices). -/
theorem claim_C2_lalr_never_runs :
    lalrProcessGrammar gMGrammar =
      Except.error "TypeError: this.nonterminals.add is not a function" ∧
    kernelKey (getKernel "S" [⟨("A", ["c"]), 1, ["d"]⟩]) =
      kernelKey (getKernel "S" [⟨("A", ["c"]), 1, ["e"]⟩]) ∧
    mergeItems [⟨[⟨("A", ["c"]), 1, ["d"]⟩], []⟩, ⟨[⟨("A", ["c"]), 1, ["e"]⟩], []⟩] [0, 1] =
      [⟨("A", ["c"]), 1, ["d"]⟩, ⟨("A", ["c"]), 1, ["e"]⟩] ∧
    (["d"] : List String) ≠ ["e"] :=
  ⟨rfl, by decide, by decide, by decide⟩

/-- C3 counterexample: take the overwrite situation the claim quantifies
over -- a row whose + cell already holds the Shift (1, 6) and the
completed production E to E + E arriving with lookahead +, with + declared
left-associative at level 1, so the terminal's and the production's
precedences are equal and the claim mandates that the cell become Reduce.
Feeding that occupied cell to the builder's own overwrite-handling code
(the reduce-insertion loop of parseTable and resolveConflict) leaves the
cell at the Shift, merely counting the conflict and recording the
preferred Shift.  (A full build of this grammar never even reaches
parseTable: its first closure expansion throws the hasItem-on-a-Set
TypeError, so the overwrite handling can only be exercised at its own
input, as here.) -/
theorem claim_C3_counterexample :
    specResolveShiftReduce gExprOps "+" ["E", "+", "E"] = SpecChoice.reduce ∧
    addReduceLA gExprProds 4 ("E", ["E", "+", "E"]) ["+"] ([("+", (1, 6))], 0, []) =
      ([("+", (1, 6))], 1, [(4, "+", (1, 6))]) ∧
    resolveConflict gExprProds ("E", ["E", "+", "E"]) (1, 6) = (1, 6) ∧
    SHIFT ≠ REDUCE :=
  ⟨by decide, by decide, by decide, by decide⟩

/-- C3 amended: when a reduce action targets an occupied cell the builder
leaves the cell unchanged (rows only ever gain fresh Reduce cells at the
end) while counting the conflict, and resolveConflict prefers shift
unconditionally -- it returns a Shift action unchanged and replaces
anything else by the Reduce; precedence and associativity are never
consulted. -/
theorem claim_C3_prefer_shift :
    (∀ (prods : List Production) (idx : Nat) (prod : Production)
       (las : List String) (row : Row) (cf : Nat) (res : List Resolution),
      ∃ extra : Row, (addReduceLA prods idx prod las (row, cf, res)).1 = row ++ extra ∧
        extra.all (fun c => c.2.1 == REDUCE) = true) ∧
    (∀ (prods : List Production) (p : Production) (n : Nat),
      resolveConflict prods p (SHIFT, n) = (SHIFT, n)) ∧
    (∀ (prods : List Production) (p : Production) (n : Nat),
      resolveConflict prods p (REDUCE, n) = (REDUCE, indexOfProd prods p)) := by
  refine ⟨fun prods idx prod las row cf res => addReduceLA_append prods idx prod las row cf res,
    fun prods p n => by simp [resolveConflict],
    fun prods p n => by simp [resolveConflict, REDUCE, SHIFT]⟩

/-- C4 counterexample: a grammar object with a bnf property, an empty
production list and no start symbol passes validateGrammar and
processGrammar without any error -- neither EmptyGrammar nor NoStart
exists in the code. -/
theorem claim_C4_counterexample :
    processGrammar ⟨some ⟨none, some [], []⟩, none⟩ =
      Except.ok ⟨[], [], []⟩ ∧
    validateGrammar ⟨some ⟨none, some [], []⟩, none⟩ = Except.ok () :=
  ⟨rfl, rfl⟩

/-- C4 amended: grammar intake fails exactly when the grammar object
carries neither a bnf nor an ebnf property; an empty production list or an
absent start symbol is accepted silently. -/
theorem claim_C4_validate_only_bnf :
    ∀ g : GrammarInput,
      (∃ st, processGrammar g = Except.ok st) ↔ (g.bnf.isSome ∨ g.ebnf.isSome) := by
  intro g
  obtain ⟨bnf, ebnf⟩ := g
  cases bnf with
  | none =>
    cases ebnf with
    | none =>
      simp [processGrammar, validateGrammar, Bind.bind, Except.bind]
    | some u =>
      simp [processGrammar, validateGrammar, Bind.bind, Except.bind, pure, Except.pure]
  | some b =>
    simp [processGrammar, validateGrammar, Bind.bind, Except.bind, pure, Except.pure]

/-- C5: the claim says LR(1)/LALR closure merges same-core items by
lookahead union before the state is keyed, so a state holds at most one
item per core.  The closure can never key such a state: expanding the
first nonterminal calls hasItem on the closure Set, and Sets have no
.some, so both the closure and the whole canonical collection of the
claim's grammar throw TypeError (first two conjuncts evaluate exactly
that).  The last two conjuncts inspect the keying the code defines: the
item key separates two same-core items that differ only in lookahead (no
per-core identification, hence nothing that could union them), while only
the LALR kernel key ignores the lookahead. -/
theorem claim_C5_closure_crashes :
    slrClosure gC5Prods ["S", "A", "B"] [⟨("S", ["A"]), 0, [EOFSym]⟩] 50 =
      Except.error closureSomeTypeError ∧
    slrCanonicalCollection gC5Prods ["S", "A", "B"] 50 50 =
      Except.error closureSomeTypeError ∧
    itemKey ⟨("B", ["a"]), 0, ["b"]⟩ ≠ itemKey ⟨("B", ["a"]), 0, ["d"]⟩ ∧
    kernelItemKey ⟨("B", ["a"]), 0, ["b"]⟩ = kernelItemKey ⟨("B", ["a"]), 0, ["d"]⟩ :=
  ⟨rfl, rfl, by decide, by decide⟩

/-- C6: the claim describes panic-mode recovery -- pop the stacks to a
state whose ACTION on ERROR is a Shift, set the recovery counter to 3, or
re-raise fatally.  With the recovery counter at 0 the source instead dies
inside its own error report: parseError receives a recoverable hash
(error_rule_depth is never assigned) and the default parseError calls the
nonexistent this.trace, a TypeError.  Concretely: with recovery counter 0,
an ERROR Shift available in state 0 lower on the stack, and no action for
the current token, the parse ends in TypeError instead of recovering (and
the popStack(undefined) RangeError of the other arm, shown by the last
conjunct, sits behind a recovering > 0 test that no real run can satisfy,
since recovering = 3 is only assigned after that popStack). -/
theorem claim_C6_recovery_crashes :
    (initMachine cfg6).recovering = 0 ∧
    lookupTable cfg6 (.num 0) (some 2) = some (1, 9) ∧
    jisonParse cfg6 10 = POutcome.typeError ∧
    parseErrorBranch { initMachine cfg6 with recovering := 1 } = POutcome.rangeError :=
  ⟨rfl, by decide, by decide, rfl⟩

/-- C7 counterexample: dispatching Accept returns the literal true, not
the top of the value stack: in this run the value stack at dispatch time
is still [null], whose last entry null differs from the returned true. -/
theorem claim_C7_counterexample :
    jisonParse cfg7 10 = POutcome.ret (JSVal.bool true) ∧
    (doLex cfg7 (initMachine cfg7)).vstack.getLast? = some JSVal.null ∧
    JSVal.bool true ≠ JSVal.null := by
  refine ⟨by decide, by decide, by decide⟩

/-- C7 amended: whenever the selected action is an Accept, parse returns
the constant true (Parser.js line 193), regardless of the value stack. -/
theorem claim_C7_accept_returns_true :
    ∀ (cfg : PCfg) (m : PMachine) (fuel : Nat) (a : Act) (m' : PMachine),
      getAction cfg m = (some a, m') → a.1 = ACCEPT →
      parseLoop cfg m (fuel + 1) = POutcome.ret (JSVal.bool true) := by
  intro cfg m fuel a m' hga hacc
  simp only [parseLoop, hga, hacc]
  norm_num [SHIFT, REDUCE, ACCEPT]

/-- C7 witness: the amended theorem applied to the concrete Accept
configuration. -/
theorem claim_C7_accept_returns_true_witness :
    parseLoop cfg7 (initMachine cfg7) (9 + 1) = POutcome.ret (JSVal.bool true) :=
  claim_C7_accept_returns_true cfg7 (initMachine cfg7) 9 (3, 0)
    (doLex cfg7 (initMachine cfg7)) rfl rfl

/-- C9: on a Reduce the semantic-action callback receives the production
index together with the value and location stacks exactly as they are
before any popping, and a defined (non-undefined) return value r makes
parse terminate immediately with r as its result. -/
theorem claim_C9_early_return :
    ∀ (cfg : PCfg) (m : PMachine) (fuel : Nat) (a : Act) (m' : PMachine)
      (prod : Nat × Nat) (l1 l2 : Loc) (r : JSVal),
      getAction cfg m = (some a, m') → a.1 = REDUCE →
      cfg.productions.get? a.2 = some prod →
      m'.lstack.get? (m'.lstack.length - (if prod.2 == 0 then 1 else prod.2)) = some l1 →
      m'.lstack.get? (m'.lstack.length - 1) = some l2 →
      cfg.performAction m'.yytext a.2 m'.vstack m'.lstack = some r →
      parseLoop cfg m (fuel + 1) = POutcome.ret r := by
  intro cfg m fuel a m' prod l1 l2 r hga hred hprod hl1 hl2 hcb
  simp only [parseLoop, hga, hred]
  norm_num [SHIFT, REDUCE]
  rw [List.get?_eq_getElem?] at hprod hl1 hl2
  simp only [beq_iff_eq] at hl1
  simp only [hprod, hl1, hl2, hcb]

/-- C9 witness: the theorem applied to the concrete Reduce configuration,
whose callback answers 42 for production 0. -/
theorem claim_C9_early_return_witness :
    parseLoop cfg9 (initMachine cfg9) (5 + 1) = POutcome.ret (JSVal.num 42) :=
  claim_C9_early_return cfg9 (initMachine cfg9) 5 (2, 0)
    (doLex cfg9 (initMachine cfg9)) (9, 1) (0, 0) (0, 0) (JSVal.num 42)
    rfl rfl rfl rfl rfl rfl

/-- C8 counterexample: a row holding two cells that both reduce by
production 1 -- one distinct reduce action across every populated cell, no
Shift, no Accept -- so the claim mandates default_action = Reduce(1) for
its state; findDefaults, demanding exactly one populated cell, records
nothing. -/
theorem claim_C8_counterexample :
    (∀ c ∈ [("b", ((2 : Nat), (1 : Nat))), ("c", ((2 : Nat), (1 : Nat)))],
      c.2 = ((REDUCE : Nat), (1 : Nat))) ∧
    findDefaults [[("b", (2, 1)), ("c", (2, 1))]] = [] :=
  ⟨by decide, by decide⟩

/-- C8 amended: the defaults map records state s exactly when the ACTION
row of s consists of a single populated cell whose action is a Reduce, the
recorded default being that action; on the one grammar family whose build
completes (gOne), the defaults are exactly the completed state 1. -/
theorem claim_C8_default_single_cell :
    (∀ (table : List Row) (s : Nat) (a : Act),
      ((s, a) ∈ findDefaults table) ↔
        ∃ row, table.get? s = some row ∧ row.map Prod.snd = [a] ∧ a.1 = REDUCE) ∧
    findDefaults gOnePT.table = [(1, (2, 0))] :=
  ⟨fun table s a => findDefaults_mem table s a, by decide⟩

/-- C10 counterexample: the type string toString is outside the five
generatorMap keys, yet createGenerator does not fall back to the LALR
generator: the object-literal lookup finds the inherited
Object.prototype.toString, a truthy non-constructor, and the new
expression throws; the constructor key likewise hands back the grammar
object instead of a generator. -/
theorem claim_C10_counterexample :
    "toString" ∉ (["lr0", "slr", "lalr", "lr1", "ll"] : List String) ∧
    createGenerator (some "toString") = FactoryResult.typeErrorNotAConstructor ∧
    createGenerator (some "toString") ≠ FactoryResult.generator GeneratorKind.lalr ∧
    createGenerator (some "constructor") = FactoryResult.grammarObject :=
  ⟨by decide, by decide, by decide, by decide⟩

/-- C10 amended: every type string outside the five generatorMap keys that
is not an inherited Object.prototype property name falls back to the LALR
generator, and so does an absent (undefined) type; the inherited names
other than constructor instead make the new expression throw. -/
theorem claim_C10_factory_fallback :
    (∀ s : String, s ∉ (["lr0", "slr", "lalr", "lr1", "ll"] : List String) →
      s ∉ objectProtoKeys →
      createGenerator (some s) = FactoryResult.generator GeneratorKind.lalr) ∧
    createGenerator none = FactoryResult.generator GeneratorKind.lalr ∧
    (∀ s ∈ objectProtoKeys, s ≠ "constructor" →
      createGenerator (some s) = FactoryResult.typeErrorNotAConstructor) := by
  refine ⟨?_, rfl, by decide⟩
  intro s hfive hproto
  simp only [List.mem_cons, List.mem_singleton, not_or] at hfive
  obtain ⟨h1, h2, h3, h4, h5⟩ := hfive
  have hc : s ≠ "constructor" := by
    intro h
    exact hproto (by rw [h]; decide)
  simp [createGenerator, generatorMapLookup, h1, h2, h3, h4, h5, hc, hproto]

/-- C10 witness: the amended theorem applied at concrete inputs -- an
unknown plain string, the undefined type, and an inherited prototype
key. -/
theorem claim_C10_factory_fallback_witness :
    createGenerator (some "foo") = FactoryResult.generator GeneratorKind.lalr ∧
    createGenerator none = FactoryResult.generator GeneratorKind.lalr ∧
    createGenerator (some "toString") = FactoryResult.typeErrorNotAConstructor :=
  ⟨claim_C10_factory_fallback.1 "foo" (by decide) (by decide),
   claim_C10_factory_fallback.2.1,
   claim_C10_factory_fallback.2.2 "toString" (by decide) (by decide)⟩

end Jison
